import Mathlib

/-!
Verification development for the ESP32 solar-logger firmware.

The repository contains four firmware variants:
* `src/Code/solar_logger_ina219_fixed.ino` — the "FIXED FOR INA219" variant
  (first compilation unit; modelled in namespace `SolarFixed`) and, appended in
  the same file, the Adafruit-library snapshot/OTA variant (modelled in
  namespace `SnapOta`);
* `src/Code/solar_logger_complete_with_ota.ino` — identical INA219 register
  code to `SolarFixed` (same `INA219_init`, `INA219_read_vbus_V`,
  `INA219_read_current_A`, `data_get_handler` energy update);
* `src/unnamed/part_000` — the INA226-style variant (namespace `Part000`);
* `src/unnamed/part_001` — the RTC/day-of-year variant (namespace `Part001`).

Modelling conventions:
* C `float`/`double` arithmetic is embedded exactly over `ℚ`; decimal literals
  such as `0.004` denote the corresponding rational.  NaN of the C code is
  modelled as `Option.none` where a field can be unavailable.
* `millis()` timestamps are naturals; the C `uint32_t` subtraction
  `now - last` is `uintSub32`.
* 16-bit registers are naturals; the C cast `(int16_t)raw` is `toInt16`.
* `localtime`/`mktime` bucket arithmetic is embedded with epoch arithmetic on
  aligned 86400 s days (time-zone/DST transitions are out of scope; the time
  provider is an external collaborator).  C integer division/modulus (which
  truncate toward zero) are `Int.tdiv`/`Int.tmod`.
* Definitions whose names end in `Spec` or start with `claim` are written from
  the specification text, for comparison against the source-derived
  definitions; everything else is translated from the source.
-/

/-- C `uint32_t` subtraction `a - b` on `millis()` values (wrap-around
subtraction modulo `2 ^ 32`). -/
def uintSub32 (a b : ℕ) : ℕ := (a % 2 ^ 32 + 2 ^ 32 - b % 2 ^ 32) % 2 ^ 32

/-- C cast `(int16_t)raw` of a 16-bit register value: reinterpret the low
16 bits as a signed two's-complement integer. -/
def toInt16 (n : ℕ) : ℤ :=
  if n % 65536 < 32768 then ((n % 65536 : ℕ) : ℤ)
  else ((n % 65536 : ℕ) : ℤ) - 65536

/-- Shared energy-accumulator state of the `ina219_fixed` and `part_000`
variants: globals `energy_Wh` and `lastEnergyMs`. -/
structure EnergyState where
  energy : ℚ
  lastMs : ℕ

/-- One I2C bus operation issued to the INA219 (register write or read). -/
inductive BusOp where
  | write16 (reg val : ℕ)
  | read16 (reg : ℕ)
deriving BEq, DecidableEq

namespace SolarFixed

/-- Constant `#define SHUNT_OHMS 0.1f` (solar_logger_ina219_fixed.ino line 20). -/
def SHUNT_OHMS : ℚ := 0.1

/-- Constant `#define MAX_CURRENT 3.2f` (line 21). -/
def MAX_CURRENT : ℚ := 3.2

/-- Assignment `current_lsb = MAX_CURRENT / 32768.0` (line 105). -/
def current_lsb : ℚ := MAX_CURRENT / 32768

/-- Assignment `ina219_calValue = (uint16_t)(0.04096 / (current_lsb * SHUNT_OHMS))`
(line 106): truncate the positive quotient and reduce to 16 bits. -/
def ina219_calValue : ℕ :=
  (⌊(0.04096 / (current_lsb * SHUNT_OHMS) : ℚ)⌋).toNat % 65536

/-- The configuration word assembled in `INA219_init` (lines 115-119):
`BVOLTAGERANGE_32V | GAIN_8_320MV | BADCRES_12BIT | SADCRES_12BIT_1S_532US |
MODE_SANDBVOLT_CONTINUOUS`. -/
def ina219_config : ℕ := 0x2000 ||| 0x1800 ||| 0x0180 ||| 0x0018 ||| 0x0007

/-- The register writes issued by `INA219_init` (lines 94-129), in program
order, on the path where each bus transaction succeeds: reset, calibration,
configuration. -/
def INA219_init_writes : List BusOp :=
  [BusOp.write16 0 0x8000, BusOp.write16 5 ina219_calValue,
   BusOp.write16 0 ina219_config]

/-- Bus operations up to the first read of the current register: `setup` runs
`INA219_init` before the HTTP server starts, and the first current read is the
`i2c_read16(INA219_ADDR, INA219_REG_CURRENT, raw)` issued by
`INA219_read_current_A` from a handler. -/
def initThenCurrentRead : List BusOp := INA219_init_writes ++ [BusOp.read16 4]

/-- The pure decode step of `INA219_read_vbus_V` (line 138):
`vbusV = ((raw >> 3) * 4.0) / 1000.0`. -/
def vbusDecode (raw : ℕ) : ℚ := (((raw >>> 3) * 4 : ℕ) : ℚ) / 1000

/-- Function `INA219_read_vbus_V` value on a successful read (lines 132-141): decode,
then `vbusV *= CAL_V`. -/
def INA219_read_vbus_V (raw : ℕ) (calV : ℚ) : ℚ := vbusDecode raw * calV

/-- The pure decode step of `INA219_read_current_A` (line 149):
`currentA = (int16_t)raw * current_lsb`. -/
def currentDecode (raw : ℕ) : ℚ := (toInt16 raw : ℚ) * current_lsb

/-- Function `INA219_read_current_A` value on a successful read (lines 144-152):
decode, then `currentA *= CAL_I`. -/
def INA219_read_current_A (raw : ℕ) (calI : ℚ) : ℚ := currentDecode raw * calI

/-- The voltage/current/power values assembled by `data_get_handler`
(lines 360-366): `v` and `i` are initialised to `0`, a successful
`INA219_read_vbus_V` / `INA219_read_current_A` overwrites them (`none` models
a failed bus read, `some x` a successful read producing `x`), and
`p = v * i`.  The booleans `vOk`/`iOk` are never consulted afterwards. -/
def data_get_vip (readV readI : Option ℚ) : ℚ × ℚ × ℚ :=
  (readV.getD 0, readI.getD 0, readV.getD 0 * readI.getD 0)

/-- The energy update of `data_get_handler` (lines 368-374):
`if (lastEnergyMs > 0 && p > 0) energy_Wh += p * hours; lastEnergyMs = now`. -/
def energyUpdate (st : EnergyState) (inp : ℕ × ℚ) : EnergyState :=
  if 0 < st.lastMs ∧ 0 < inp.2 then
    { energy := st.energy + inp.2 * ((uintSub32 inp.1 st.lastMs : ℚ) / 3600000),
      lastMs := inp.1 }
  else
    { energy := st.energy, lastMs := inp.1 }

/-- The calibration load in `setup` (lines 616-625): when `/cal.cfg` is
missing the globals keep their initialisers `CAL_I = CAL_V = 1.0`; otherwise
`CAL_I = f.parseFloat(); CAL_V = f.parseFloat();` adopts the two parsed values
with no further checks. -/
def setupLoadCal (file : Option (ℚ × ℚ)) : ℚ × ℚ :=
  match file with
  | none => (1, 1)
  | some iv => iv

end SolarFixed

namespace SnapOta

/-- Type `struct Sample` of the snapshot/OTA variant (solar_logger_ina219_fixed.ino
lines 722-729): float fields default to `NAN` (modelled `none`), `ms` to 0. -/
structure Sample where
  v_bus_V : Option ℚ
  v_shunt_mV : Option ℚ
  current_mA : Option ℚ
  power_mW : Option ℚ
  v_source_V : Option ℚ
  ms : ℕ
deriving DecidableEq

/-- A default-constructed `Sample` (all float fields `NAN`). -/
def defSample : Sample := ⟨none, none, none, none, none, 0⟩

/-- The shared state `SNAP[2]` and `SNAP_SEQ` (lines 731-732); both buffer
entries are default-initialised. -/
structure SnapState where
  seq : ℕ
  snap0 : Sample
  snap1 : Sample
deriving DecidableEq

/-- Array indexing `SNAP[k & 1]` (read). -/
def snapAt (st : SnapState) (k : ℕ) : Sample :=
  if k % 2 = 0 then st.snap0 else st.snap1

/-- Array indexing `SNAP[k & 1]` (write). -/
def setSnap (st : SnapState) (k : ℕ) (s : Sample) : SnapState :=
  if k % 2 = 0 then { st with snap0 := s } else { st with snap1 := s }

/-- Function `publishSnapshot` (lines 747-752), run to completion with no concurrent
reader: `n = SNAP_SEQ + 1; SNAP_SEQ = n; SNAP[n & 1] = s; SNAP_SEQ = n + 1`. -/
def publishSnapshot (st : SnapState) (s : Sample) : SnapState :=
  let n := st.seq + 1
  let st2 := setSnap { st with seq := n } n s
  { st2 with seq := n + 1 }

/-- Function `getSnapshotCopy` (lines 734-745) with no concurrent writer: it reads
`s1 = SNAP_SEQ`, retries while `s1` is odd (modelled `none`: sequentially the
loop would never exit), and otherwise returns `SNAP[s1 & 1]` — the re-check
`s1 == s2` then always succeeds. -/
def getSnapshotCopy (st : SnapState) : Option Sample :=
  if st.seq % 2 = 1 then none else some (snapAt st (st.seq % 2))

/-- The state at boot: `SNAP_SEQ = 0`, both buffers default. -/
def initSnapState : SnapState := ⟨0, defSample, defSample⟩

/-- A concrete sample published by the writer (bus voltage 5 V read, other
readings unavailable, timestamp 42 ms). -/
def sampleA : Sample := ⟨some 5, none, none, none, none, 42⟩

/-- Function `sampleINA` (lines 773-792): with `haveINA` false the default (all-NaN)
sample is published with only `ms` set; otherwise the four library readings
fill the fields and `v_source_V = busV + shunt_mV / 1000`. -/
def sampleINA (haveINA : Bool) (busV shunt_mV curr_mA pow_mW : ℚ) (ms : ℕ) :
    Sample :=
  if haveINA then
    { v_bus_V := some busV, v_shunt_mV := some shunt_mV,
      current_mA := some curr_mA, power_mW := some pow_mW,
      v_source_V := some (busV + shunt_mV / 1000), ms := ms }
  else
    { defSample with ms := ms }

end SnapOta

/-- The C accumulation pattern `if (sel r) { sum[key r] += val r;
cnt[key r]++; }` as one fold step over a table of (sum, count) pairs. -/
def tallyStep {α : Type} (sel : α → Bool) (key : α → ℕ) (val : α → ℚ)
    (f : ℕ → ℚ × ℕ) (r : α) : ℕ → ℚ × ℕ :=
  if sel r then
    Function.update f (key r) ((f (key r)).1 + val r, (f (key r)).2 + 1)
  else f

/-- Run the tally loop over a record list starting from the zeroed table. -/
def tallyRun {α : Type} (sel : α → Bool) (key : α → ℕ) (val : α → ℚ)
    (recs : List α) : ℕ → ℚ × ℕ :=
  recs.foldl (tallyStep sel key val) fun _ => (0, 0)

namespace Part000

/-- Function `INA219_read_vbus_V` of part_000 (lines 73-78): `vbusV = (float)raw *
0.00125f` — the raw register scaled directly at 1.25 mV/bit, no shift. -/
def INA219_read_vbus_V (raw : ℕ) : ℚ := (raw : ℚ) * 0.00125

/-- The energy update of part_000's `data_get_handler` (lines 367-371):
`if (lastEnergyMs == 0) lastEnergyMs = nowMs; dt_h = (nowMs - lastEnergyMs) /
3600000.0f; lastEnergyMs = nowMs; energy_Wh += (p * dt_h);` — no sign guard on
`p`. -/
def energyUpdate (st : EnergyState) (inp : ℕ × ℚ) : EnergyState :=
  let last := if st.lastMs = 0 then inp.1 else st.lastMs
  { energy := st.energy + inp.2 * ((uintSub32 inp.1 last : ℚ) / 3600000),
    lastMs := inp.1 }

/-- One line of `/cal.cfg` as consumed by part_000's `loadCal` (line 537): a
line starting `CAL_V=` or `CAL_I=` assigns the `toFloat` of its remainder
(`toFloat` of non-numeric text is 0), any other line is ignored. -/
inductive CalLine where
  | setV (x : ℚ)
  | setI (x : ℚ)
  | other
deriving DecidableEq

/-- The `loadCal` line loop (line 537), folding over the file lines starting
from the current globals `(CAL_V, CAL_I)`. -/
def loadCalFold (init : ℚ × ℚ) (ls : List CalLine) : ℚ × ℚ :=
  ls.foldl
    (fun vi l =>
      match l with
      | CalLine.setV x => (x, vi.2)
      | CalLine.setI x => (vi.1, x)
      | CalLine.other => vi)
    init

/-- The per-field sanitisation in part_000's `setup` (lines 678-679):
`if (CAL <= 0 || !isfinite(CAL)) CAL = 1.0f` (every `ℚ` is finite, so only
the sign test remains in the model). -/
def sanitizeCal (c : ℚ) : ℚ := if c ≤ 0 then 1 else c

/-- Part_000's whole calibration load path in `setup`: globals start at
`(1, 1)`, `loadCal` runs only when the file opens (`none` models a missing or
unopenable file), then both fields are sanitised (lines 675-679). -/
def setupLoadCal (file : Option (List CalLine)) : ℚ × ℚ :=
  let vi := match file with
    | none => ((1 : ℚ), (1 : ℚ))
    | some ls => loadCalFold (1, 1) ls
  (sanitizeCal vi.1, sanitizeCal vi.2)

/-- The `CAL_V` assignment of a single line, if any. -/
def lineV : CalLine → Option ℚ
  | CalLine.setV x => some x
  | _ => none

/-- The `CAL_I` assignment of a single line, if any. -/
def lineI : CalLine → Option ℚ
  | CalLine.setI x => some x
  | _ => none

/-- The last value assigned to `CAL_V` by a line list, if any. -/
def lastV : List CalLine → Option ℚ
  | [] => none
  | l :: ls =>
    match lastV ls with
    | some x => some x
    | none => lineV l

/-- The last value assigned to `CAL_I` by a line list, if any. -/
def lastI : List CalLine → Option ℚ
  | [] => none
  | l :: ls =>
    match lastI ls with
    | some x => some x
    | none => lineI l

/-- The specification's loaded-field value: the stored value when strictly
positive, else the default 1.0 (spec section 4.2). -/
def claimCalField (stored : Option ℚ) : ℚ :=
  match stored with
  | some x => if 0 < x then x else 1
  | none => 1

/-- Today filter of part_000's `hourly_get_handler` (line 440):
`startDay <= ep && ep < endDay` for a parsed record `(ep, w)`. -/
def inToday (startDay : ℤ) (r : ℤ × ℚ) : Bool :=
  decide (startDay ≤ r.1 ∧ r.1 < startDay + 86400)

/-- The hour bucket `t.tm_hour` of a record inside today (line 441), with
local midnights modelled as aligned 86400 s boundaries. -/
def hourKey (startDay : ℤ) (r : ℤ × ℚ) : ℕ :=
  (Int.tdiv (r.1 - startDay) 3600).toNat

/-- Part_000's `hourly_get_handler` (lines 428-456) on the parsed records of
`/log.csv`: accumulate `sum[h] += w; cnt[h]++` over today's records, then emit
for every hour `0..23` the value `cnt[h] ? sum[h]/cnt[h] : 0`. -/
def hourly_get_handler (startDay : ℤ) (recs : List (ℤ × ℚ)) : List ℚ :=
  (List.range 24).map fun h =>
    let t := tallyRun (inToday startDay) (hourKey startDay) Prod.snd recs h
    if t.2 = 0 then 0 else t.1 / (t.2 : ℚ)

/-- Specification-side bucket contents: today's records whose hour is `h`. -/
def hourRecordsSpec (startDay : ℤ) (recs : List (ℤ × ℚ)) (h : ℕ) :
    List (ℤ × ℚ) :=
  recs.filter fun r => inToday startDay r && (hourKey startDay r == h)

/-- Specification-side bucket value: the arithmetic mean of the bucket's
power values, 0 for an empty bucket. -/
def hourlyMeanSpec (startDay : ℤ) (recs : List (ℤ × ℚ)) (h : ℕ) : ℚ :=
  let l := hourRecordsSpec startDay recs h
  if l.length = 0 then 0 else (l.map Prod.snd).sum / (l.length : ℚ)

/-- The fold state of part_000's `daily_get_handler`/`monthly_get_handler`
loops: the accumulator table `wh[]` and the trailing `(epPrev, wPrev)`
(initialised `epPrev = 0`, `wPrev = 0`). One step (lines 469-477): when
`epPrev > 0 && ep > epPrev`, add `0.5 * (wPrev + w) * (ep - epPrev) / 3600`
into the slot assigned to `epPrev` (if any), then advance `(epPrev, wPrev)`.
The slot function abstracts the `localtime`/`mktime` bucket lookup together
with its range check; `slotAdd` is the guarded array update
`if (idx in range) wh[slot] += pw * dt_h`. -/
def slotAdd (acc : ℕ → ℚ) (o : Option ℕ) (x : ℚ) : ℕ → ℚ :=
  match o with
  | some k => Function.update acc k (acc k + x)
  | none => acc

/-- One step of the loop: when `epPrev > 0 && ep > epPrev`, add
`0.5 * (wPrev + w) * (ep - epPrev) / 3600` into the slot assigned to `epPrev`
(if in range), then advance `(epPrev, wPrev)` to the current record. -/
def trapStep (slotOf : ℤ → Option ℕ) :
    (ℕ → ℚ) × ℤ × ℚ → ℤ × ℚ → (ℕ → ℚ) × ℤ × ℚ
  | (acc, epPrev, wPrev), (ep, w) =>
    (if 0 < epPrev ∧ epPrev < ep then
       slotAdd acc (slotOf epPrev) (((wPrev + w) / 2) * (((ep - epPrev : ℤ) : ℚ) / 3600))
     else acc,
     ep, w)

/-- Run the trapezoid loop over the parsed records and emit the `n` slots. -/
def trapRun (slotOf : ℤ → Option ℕ) (n : ℕ) (recs : List (ℤ × ℚ)) : List ℚ :=
  (List.range n).map fun k =>
    (recs.foldl (trapStep slotOf) ((fun _ => 0), 0, 0)).1 k

/-- Midnight of the day containing `ep` (model of
`localtime_r; tm_hour = tm_min = tm_sec = 0; mktime`, lines 472-473). -/
def dayStart (ep : ℤ) : ℤ := ep - Int.tmod ep 86400

/-- The slot assignment of `daily_get_handler` (lines 474-475):
`idx = (today0 - dayStartA) / 86400`, kept when `0 <= idx < 30`, stored at
`wh[DAYS-1-idx]`. -/
def dailySlot (today0 : ℤ) (ep : ℤ) : Option ℕ :=
  let idx := Int.tdiv (today0 - dayStart ep) 86400
  if 0 ≤ idx ∧ idx < 30 then some (29 - idx).toNat else none

/-- Part_000's `daily_get_handler` (lines 458-493) on the parsed records. -/
def daily_get_handler (today0 : ℤ) (recs : List (ℤ × ℚ)) : List ℚ :=
  trapRun (dailySlot today0) 30 recs

/-- Specification-side contribution of one consecutive pair of records to
slot `k`: elapsed hours times the average of the two powers, attributed to the
bucket of the earlier timestamp (spec section 4.6). -/
def trapPairContribSpec (slotOf : ℤ → Option ℕ) (k : ℕ)
    (pr : (ℤ × ℚ) × ℤ × ℚ) : ℚ :=
  if 0 < pr.1.1 ∧ pr.1.1 < pr.2.1 ∧ slotOf pr.1.1 = some k then
    ((pr.1.2 + pr.2.2) / 2) * (((pr.2.1 - pr.1.1 : ℤ) : ℚ) / 3600)
  else 0

/-- Specification-side rollup: for each slot, the sum of the contributions of
all consecutive record pairs. -/
def trapSpec (slotOf : ℤ → Option ℕ) (n : ℕ) (recs : List (ℤ × ℚ)) : List ℚ :=
  (List.range n).map fun k =>
    ((recs.zip recs.tail).map (trapPairContribSpec slotOf k)).sum

end Part000

namespace Part001

/-- The state acted on by part_001's `logSample`: globals `energyToday_Wh`,
`lastDayOfYear` (sentinel `-1`) and `lastEnergyMs`. -/
structure E1State where
  energyWh : ℚ
  lastDoy : ℤ
  lastEnergyMs : ℕ

/-- Function `maybeMidnightReset` (part_001 lines 182-190): adopt the day key when none
is stored yet; on a changed key adopt it and zero `energyToday_Wh`; otherwise
do nothing. -/
def maybeMidnightReset (doy : ℤ) (st : E1State) : E1State :=
  if st.lastDoy = -1 then { st with lastDoy := doy }
  else if doy ≠ st.lastDoy then { st with lastDoy := doy, energyWh := 0 }
  else st

/-- The energy-relevant part of `logSample` (lines 193-220): with an RTC the
day key is supplied and `maybeMidnightReset` runs first; then
`hours = (tNow - lastEnergyMs) / 3600000.0f`, the contribution
`(power_mW / 1000) * hours` is added when the power reading is available, and
`lastEnergyMs` advances to `tNow` unconditionally. -/
def logSampleStep (doy : Option ℤ) (power_mW : Option ℚ) (nowMs : ℕ)
    (st : E1State) : E1State :=
  let st1 := match doy with
    | some d => maybeMidnightReset d st
    | none => st
  let hours : ℚ := (uintSub32 nowMs st1.lastEnergyMs : ℚ) / 3600000
  let e2 := match power_mW with
    | some p => st1.energyWh + (p / 1000) * hours
    | none => st1.energyWh
  { energyWh := e2, lastDoy := st1.lastDoy, lastEnergyMs := nowMs }

/-- A parsed record of part_001's `/solar_log.csv` as used by the
aggregators: a day tag (distinguishing calendar days of the timestamp), the
hour digits after the `T`, and the power in mW. -/
def RecP1 : Type := ℕ × ℕ × ℚ

/-- The hour guard of `handleHourly` (line 1167): `hour >= 0 && hour < 24`. -/
def hourOk (r : RecP1) : Bool := decide (r.2.1 < 24)

/-- Part_001's `handleHourly` (lines 1125-1243) on the parsed records:
accumulate `sum[hour] += p; cnt[hour]++` over all records of the log
(no date filter), then emit hours `0..currentHour` as
`cnt[h] ? (sum[h]/cnt[h])/1000 : 0` (mW to W). -/
def handleHourly (currentHour : ℕ) (recs : List RecP1) : List ℚ :=
  (List.range (min (currentHour + 1) 24)).map fun h =>
    let t := tallyRun hourOk (fun r => r.2.1) (fun r => r.2.2) recs h
    if t.2 = 0 then 0 else t.1 / (t.2 : ℚ) / 1000

/-- Specification-side value actually computed by `handleHourly`: the mean
over the records of every logged day whose hour-of-day is `h`, in W. -/
def hourAllDaysMeanSpec (recs : List RecP1) (h : ℕ) : ℚ :=
  let l := recs.filter fun r => hourOk r && (r.2.1 == h)
  if l.length = 0 then 0 else (l.map fun r => r.2.2).sum / (l.length : ℚ) / 1000

/-- The claimed bucket value, written from the claim text: the mean over
today's records only whose hour is `h`, in W. -/
def claimHourTodayMean (today : ℕ) (recs : List RecP1) (h : ℕ) : ℚ :=
  let l := recs.filter fun r => (r.1 == today) && (r.2.1 == h)
  if l.length = 0 then 0 else (l.map fun r => r.2.2).sum / (l.length : ℚ) / 1000

/-- Part_001's `handleDaily` bucket energy (lines 1351-1359) on parsed
records `(slot, p_mW)` with `slot < 30` the day index: the bucket value is
`(dailySum/dailyCnt) * ((dailyCnt * 5) / 3600) / 1000` — average power times
5 seconds per record — not an integral over record spacing. -/
def handleDaily_wh (recs : List (ℕ × ℚ)) (slot : ℕ) : ℚ :=
  let t := tallyRun (fun r => decide (r.1 < 30)) Prod.fst Prod.snd recs slot
  if t.2 = 0 then 0 else t.1 / (t.2 : ℚ) * ((t.2 : ℚ) * 5 / 3600) / 1000

/-- The claimed trapezoidal energy of a single consecutive pair, written from
the claim text: elapsed seconds over 3600 times the average of the two powers
in W. -/
def claimTrapezoidWh (dt_s p1_W p2_W : ℚ) : ℚ :=
  dt_s / 3600 * ((p1_W + p2_W) / 2)

end Part001

/-! ## Helper lemmas -/

theorem tallyStep_apply {α : Type} (sel : α → Bool) (key : α → ℕ) (val : α → ℚ)
    (f : ℕ → ℚ × ℕ) (r : α) (h : ℕ) :
    tallyStep sel key val f r h
      = if sel r && (key r == h) then ((f h).1 + val r, (f h).2 + 1) else f h := by
  unfold tallyStep
  by_cases hs : sel r
  · rw [if_pos hs, Function.update_apply]
    by_cases hk : h = key r
    · subst hk
      simp [hs]
    · have hk2 : ¬(key r == h) = true := by simp [Ne.symm hk]
      simp [hs, hk, hk2]
  · simp [hs]

theorem foldl_tallyStep {α : Type} (sel : α → Bool) (key : α → ℕ) (val : α → ℚ) :
    ∀ (recs : List α) (f : ℕ → ℚ × ℕ) (h : ℕ),
      recs.foldl (tallyStep sel key val) f h
        = ((f h).1 + ((recs.filter fun r => sel r && (key r == h)).map val).sum,
           (f h).2 + (recs.filter fun r => sel r && (key r == h)).length) := by
  intro recs
  induction recs with
  | nil => simp
  | cons r rs ih =>
    intro f h
    rw [List.foldl_cons, ih, tallyStep_apply]
    by_cases hc : (sel r && (key r == h)) = true
    · simp only [hc, if_pos, List.filter_cons_of_pos, List.map_cons, List.sum_cons,
        List.length_cons, Prod.mk.injEq]
      constructor
      · ring
      · omega
    · rw [if_neg hc, List.filter_cons_of_neg (by simpa using hc)]

theorem tallyRun_eq {α : Type} (sel : α → Bool) (key : α → ℕ) (val : α → ℚ)
    (recs : List α) (h : ℕ) :
    tallyRun sel key val recs h
      = (((recs.filter fun r => sel r && (key r == h)).map val).sum,
         (recs.filter fun r => sel r && (key r == h)).length) := by
  rw [tallyRun, foldl_tallyStep]
  simp

/-! ## C1 — bus-voltage decoding -/

/-- Claim C1 (code_bug evidence): in the fixed variant the decoded bus voltage
is `(raw >> 3) * 0.004` volts for every raw register value, independent of the
low 3 status bits, with `raw = 9` decoding to 0.004 V; part_000's
`INA219_read_vbus_V` instead scales the unshifted register (`9 * 0.00125 =
0.01125` V), contradicting the repository's own "FIXED FOR INA219 / must shift
right by 3 bits" documentation. -/
theorem C1_bus_voltage_shift_decode :
    (∀ raw : ℕ, SolarFixed.vbusDecode raw = ((raw / 8 : ℕ) : ℚ) * (4 / 1000)) ∧
    (∀ q r : ℕ,
      SolarFixed.vbusDecode (8 * q + r % 8) = SolarFixed.vbusDecode (8 * q)) ∧
    (∀ raw : ℕ, SolarFixed.INA219_read_vbus_V raw 1 = SolarFixed.vbusDecode raw) ∧
    SolarFixed.vbusDecode 9 = 4 / 1000 ∧
    Part000.INA219_read_vbus_V 9 = 9 * (125 / 100000) ∧
    Part000.INA219_read_vbus_V 9 ≠ SolarFixed.vbusDecode 9 := by
  refine ⟨?_, ?_, ?_, ?_, ?_, ?_⟩
  · intro raw
    unfold SolarFixed.vbusDecode
    rw [Nat.shiftRight_eq_div_pow]
    push_cast
    ring
  · intro q r
    have hdiv : (8 * q + r % 8) / 8 = (8 * q) / 8 := by omega
    unfold SolarFixed.vbusDecode
    rw [Nat.shiftRight_eq_div_pow, Nat.shiftRight_eq_div_pow]
    norm_num [hdiv]
  · intro raw
    unfold SolarFixed.INA219_read_vbus_V
    rw [mul_one]
  · norm_num [SolarFixed.vbusDecode, Nat.shiftRight_eq_div_pow]
  · norm_num [Part000.INA219_read_vbus_V]
  · norm_num [Part000.INA219_read_vbus_V, SolarFixed.vbusDecode,
      Nat.shiftRight_eq_div_pow]

/-! ## C2 — calibration computation and programming -/

/-- Claim C2 (counterexample): the computed calibration register value for
`max_current = 3.2 A` and `shunt = 0.1 Ω` is not 4096. -/
theorem C2_calibration_not_4096 : SolarFixed.ina219_calValue ≠ 4096 := by
  have hcal : SolarFixed.ina219_calValue = 4194 := by
    unfold SolarFixed.ina219_calValue SolarFixed.current_lsb SolarFixed.MAX_CURRENT
      SolarFixed.SHUNT_OHMS
    norm_num
    decide
  rw [hcal]
  decide

/-- Claim C2 (amended): at initialisation `current_lsb = 3.2 / 32768` and the
calibration register value is `trunc(0.04096 / (current_lsb * 0.1))` reduced
to `uint16`, which equals 4194 (not 4096), and in the issued bus-operation
sequence the write of exactly this value to calibration register 5 precedes
the first read of current register 4. -/
theorem C2_calibration_init :
    SolarFixed.current_lsb = 3.2 / 32768 ∧
    SolarFixed.ina219_calValue = 4194 ∧
    SolarFixed.initThenCurrentRead.indexOf
        (BusOp.write16 5 SolarFixed.ina219_calValue)
      < SolarFixed.initThenCurrentRead.indexOf (BusOp.read16 4) := by
  have hcal : SolarFixed.ina219_calValue = 4194 := by
    unfold SolarFixed.ina219_calValue SolarFixed.current_lsb SolarFixed.MAX_CURRENT
      SolarFixed.SHUNT_OHMS
    norm_num
    decide
  refine ⟨rfl, hcal, ?_⟩
  simp only [SolarFixed.initThenCurrentRead, SolarFixed.INA219_init_writes, hcal]
  decide

/-! ## C3 — signed current decoding -/

/-- Claim C3: every raw current register value at or above `0x8000` decodes,
via the `(int16_t)` reinterpretation times `current_lsb`, to a strictly
negative current. -/
theorem C3_negative_current_decode (raw : ℕ) (h1 : 32768 ≤ raw)
    (h2 : raw < 65536) : SolarFixed.currentDecode raw < 0 := by
  unfold SolarFixed.currentDecode toInt16
  rw [Nat.mod_eq_of_lt h2, if_neg (by omega)]
  have hlsb : (0 : ℚ) < SolarFixed.current_lsb := by
    norm_num [SolarFixed.current_lsb, SolarFixed.MAX_CURRENT]
  have hneg : (((raw : ℤ) - 65536 : ℤ) : ℚ) < 0 := by
    have h3 : (raw : ℤ) - 65536 < 0 := by omega
    exact_mod_cast h3
  exact mul_neg_of_neg_of_pos hneg hlsb

/-- Claim C3 witness: `raw = 0xFFFF` is in range and decodes negative
(with the source's `current_lsb = 3.2 / 32768`). -/
theorem C3_negative_current_decode_witness :
    32768 ≤ 65535 ∧ 65535 < 65536 ∧ SolarFixed.currentDecode 65535 < 0 :=
  ⟨by decide, by decide,
    C3_negative_current_decode 65535 (by decide) (by decide)⟩

/-! ## C4 — failed reads and unavailable fields -/

/-- Claim C4 (code_bug evidence): when a register read fails,
`data_get_handler` of the fixed variant publishes 0 for the affected field
(both fields on a double failure, and current 0 with voltage 12 when only the
current read fails), instead of an unavailable marker; the snapshot variant's
`sampleINA` by contrast leaves the field `NAN` when no reading is possible. -/
theorem C4_read_failure_substitutes_zero :
    (SolarFixed.data_get_vip none none).1 = 0 ∧
    (SolarFixed.data_get_vip none none).2.1 = 0 ∧
    (SolarFixed.data_get_vip (some 12) none).2.1 = 0 ∧
    (SnapOta.sampleINA false 0 0 0 0 7).v_bus_V = none :=
  ⟨rfl, rfl, rfl, rfl⟩

/-! ## C5 — monotonicity of the energy accumulator -/

/-- Claim C5 (amended): over every sequence of energy-integration steps of the
fixed variant — whose `data_get_handler` adds `p * hours` only when
`lastEnergyMs > 0` and `p > 0` — the accumulator `energy_Wh` never
decreases. -/
theorem C5_fixed_energy_monotone (steps : List (ℕ × ℚ)) (st : EnergyState) :
    st.energy ≤ (steps.foldl SolarFixed.energyUpdate st).energy := by
  induction steps generalizing st with
  | nil => simp
  | cons x xs ih =>
    rw [List.foldl_cons]
    refine le_trans ?_ (ih (SolarFixed.energyUpdate st x))
    unfold SolarFixed.energyUpdate
    by_cases h : 0 < st.lastMs ∧ 0 < x.2
    · rw [if_pos h]
      have hdt : (0 : ℚ) ≤ (uintSub32 x.1 st.lastMs : ℚ) / 3600000 :=
        div_nonneg (Nat.cast_nonneg _) (by norm_num)
      have := mul_nonneg (le_of_lt h.2) hdt
      simp only
      linarith
    · rw [if_neg h]

/-- Claim C5 (counterexample): part_000's unguarded energy step decreases
`energy_Wh` with no reset involved — from the state `energy_Wh = 0`,
`lastEnergyMs = 1000`, integrating power −1 W at `nowMs = 3601000`
(one elapsed hour) leaves `energy_Wh = −1`. -/
theorem C5_part000_energy_decreases :
    (Part000.energyUpdate ⟨0, 1000⟩ (3601000, -1)).energy
      < (EnergyState.mk 0 1000).energy := by
  simp only [Part000.energyUpdate]
  norm_num [uintSub32]

/-! ## C6 — period reset adopts the key and keeps the new contribution -/

/-- Claim C6: in part_001's `logSample`, once an anchor day is stored
(`lastDayOfYear ≠ -1`) and a day key is supplied: a differing key zeroes
`energyToday_Wh`, adopts the key, and the same step still adds the current
contribution `(p / 1000) * hours` computed from the pre-step
`lastEnergyMs` (the contribution is not lost); an equal key performs no reset
and the contribution is added to the running total. -/
theorem C6_period_reset_then_add (st : Part001.E1State) (d : ℤ) (p : ℚ)
    (now : ℕ) (hanchor : st.lastDoy ≠ -1) :
    (d ≠ st.lastDoy →
      (Part001.logSampleStep (some d) (some p) now st).energyWh
        = p / 1000 * ((uintSub32 now st.lastEnergyMs : ℚ) / 3600000) ∧
      (Part001.logSampleStep (some d) (some p) now st).lastDoy = d) ∧
    (d = st.lastDoy →
      (Part001.logSampleStep (some d) (some p) now st).energyWh
        = st.energyWh + p / 1000 * ((uintSub32 now st.lastEnergyMs : ℚ) / 3600000) ∧
      (Part001.logSampleStep (some d) (some p) now st).lastDoy = st.lastDoy) := by
  constructor
  · intro hne
    simp [Part001.logSampleStep, Part001.maybeMidnightReset, hanchor, hne]
  · intro heq
    subst heq
    simp [Part001.logSampleStep, Part001.maybeMidnightReset, hanchor]

/-- Claim C6 witness: from anchor day 5 with 2 Wh accumulated and
`lastEnergyMs = 0`, a step with day key 6, power 2000 mW at `nowMs = 3600000`
resets and stores exactly the fresh contribution, adopting anchor 6. -/
theorem C6_period_reset_then_add_witness :
    (Part001.E1State.mk 7 5 0).lastDoy ≠ -1 ∧
    (6 : ℤ) ≠ (Part001.E1State.mk 7 5 0).lastDoy ∧
    (Part001.logSampleStep (some 6) (some 2000) 3600000 ⟨7, 5, 0⟩).energyWh
      = 2000 / 1000
        * ((uintSub32 3600000 (Part001.E1State.mk 7 5 0).lastEnergyMs : ℚ)
            / 3600000) ∧
    (Part001.logSampleStep (some 6) (some 2000) 3600000 ⟨7, 5, 0⟩).lastDoy = 6 := by
  have h :=
    (C6_period_reset_then_add ⟨7, 5, 0⟩ 6 2000 3600000 (by decide)).1 (by decide)
  exact ⟨by decide, by decide, h.1, h.2⟩

/-! ## C7 — calibration load sanitisation -/

theorem loadCalFold_eq_last :
    ∀ (ls : List Part000.CalLine) (v0 i0 : ℚ),
      Part000.loadCalFold (v0, i0) ls
        = ((Part000.lastV ls).getD v0, (Part000.lastI ls).getD i0) := by
  intro ls
  induction ls with
  | nil => intro v0 i0; rfl
  | cons l ls ih =>
    intro v0 i0
    have hstep :
        Part000.loadCalFold (v0, i0) (l :: ls)
          = Part000.loadCalFold
              (match l with
               | Part000.CalLine.setV x => (x, i0)
               | Part000.CalLine.setI x => (v0, x)
               | Part000.CalLine.other => (v0, i0)) ls := by
      cases l <;> rfl
    rw [hstep]
    have hVc : ∀ x, Part000.lastV (x :: ls)
        = match Part000.lastV ls with
          | some y => some y
          | none => Part000.lineV x := fun _ => rfl
    have hIc : ∀ x, Part000.lastI (x :: ls)
        = match Part000.lastI ls with
          | some y => some y
          | none => Part000.lineI x := fun _ => rfl
    rw [ih, hVc, hIc]
    cases l <;> cases hV : Part000.lastV ls <;> cases hI : Part000.lastI ls <;>
      simp [Part000.lineV, Part000.lineI]

theorem sanitize_eq_claimField (o : Option ℚ) :
    Part000.sanitizeCal (o.getD 1) = Part000.claimCalField o := by
  cases o with
  | none =>
    simp [Part000.sanitizeCal, Part000.claimCalField]
  | some x =>
    simp only [Option.getD_some, Part000.sanitizeCal, Part000.claimCalField]
    rcases le_or_lt x 0 with hx | hx
    · rw [if_pos hx, if_neg (not_lt.mpr hx)]
    · rw [if_neg (not_le.mpr hx), if_pos hx]

/-- Claim C7 (amended): part_000's load path never fails and yields, per field
independently, the last stored value when strictly positive and the default
1.0 when the field is missing or the stored value is zero or negative (every
rational is finite, so the `isfinite` test of the source is vacuous in the
model); the fixed variant's loader performs no such sanitisation. -/
theorem C7_part000_load_sanitizes (file : Option (List Part000.CalLine)) :
    Part000.setupLoadCal file
      = (Part000.claimCalField (file.bind Part000.lastV),
         Part000.claimCalField (file.bind Part000.lastI)) := by
  cases file with
  | none =>
    show (Part000.sanitizeCal 1, Part000.sanitizeCal 1)
      = (Part000.claimCalField none, Part000.claimCalField none)
    norm_num [Part000.sanitizeCal, Part000.claimCalField]
  | some ls =>
    show (Part000.sanitizeCal ((Part000.loadCalFold (1, 1) ls).1),
          Part000.sanitizeCal ((Part000.loadCalFold (1, 1) ls).2))
      = (Part000.claimCalField (Part000.lastV ls),
         Part000.claimCalField (Part000.lastI ls))
    rw [loadCalFold_eq_last]
    rw [← sanitize_eq_claimField (Part000.lastV ls),
      ← sanitize_eq_claimField (Part000.lastI ls)]

/-- Claim C7 (counterexample): the fixed variant adopts a stored negative
current multiplier unchanged — a `/cal.cfg` parsing to `CAL_I = -2`,
`CAL_V = 3` loads as `(-2, 3)`, where the claim requires the non-positive
field to load as 1.0. -/
theorem C7_fixed_no_sanitize :
    SolarFixed.setupLoadCal (some (-2, 3)) = (-2, 3) ∧
    ((-2 : ℚ) ≤ 0) ∧
    (SolarFixed.setupLoadCal (some (-2, 3))).1 ≠ 1 := by
  refine ⟨rfl, by norm_num, ?_⟩
  norm_num [SolarFixed.setupLoadCal]

/-! ## C8 — snapshot publish/read round trip -/

/-- Claim C8 (code_bug evidence): starting from the boot state, after
`publishSnapshot(sampleA)` has completed (and before any later publish),
`getSnapshotCopy()` returns the never-written default sample, not `sampleA`:
the writer stored `sampleA` in `SNAP[1]` (its sequence number is odd) while
the reader, whose observed sequence number is even, copies `SNAP[0]`. -/
theorem C8_snapshot_roundtrip_fails :
    SnapOta.getSnapshotCopy
        (SnapOta.publishSnapshot SnapOta.initSnapState SnapOta.sampleA)
      = some SnapOta.defSample ∧
    (SnapOta.publishSnapshot SnapOta.initSnapState SnapOta.sampleA).snap1
      = SnapOta.sampleA ∧
    SnapOta.defSample ≠ SnapOta.sampleA := by
  refine ⟨rfl, rfl, ?_⟩
  intro h
  have hms := congrArg SnapOta.Sample.ms h
  simp [SnapOta.defSample, SnapOta.sampleA] at hms

/-! ## C9 — hourly aggregation -/

/-- Claim C9 (amended): part_000's hourly handler emits, for every one of the
24 hours of today, the arithmetic mean of the power values of today's records
in that hour and 0 for an empty hour; part_001's handler emits hours
0..current-hour with, for each, the mean over the records of the whole log
(every logged day) whose hour-of-day matches, scaled mW to W, and 0 for an
empty hour — it does not restrict the bucket to today's records. -/
theorem C9_hourly_mean_zero_fill :
    (∀ (startDay : ℤ) (recs : List (ℤ × ℚ)),
        Part000.hourly_get_handler startDay recs
          = (List.range 24).map (Part000.hourlyMeanSpec startDay recs)) ∧
    (∀ (currentHour : ℕ) (recs : List Part001.RecP1),
        Part001.handleHourly currentHour recs
          = (List.range (min (currentHour + 1) 24)).map
              (Part001.hourAllDaysMeanSpec recs)) := by
  constructor
  · intro startDay recs
    unfold Part000.hourly_get_handler Part000.hourlyMeanSpec Part000.hourRecordsSpec
    apply List.map_congr_left
    intro h _
    rw [tallyRun_eq]
  · intro currentHour recs
    unfold Part001.handleHourly Part001.hourAllDaysMeanSpec
    apply List.map_congr_left
    intro h _
    rw [tallyRun_eq]

/-- Claim C9 (counterexample): part_001's hourly handler averages records of
different days into one hour bucket.  With one record of day 0 (hour 14,
50000 mW) and one of day 1 = today (hour 14, 150000 mW), and current hour 14,
the handler reports 100 W for hour 14; the mean over today's hour-14 records,
as the claim requires, is 150 W. -/
theorem C9_part001_hourly_mixes_days :
    Part001.handleHourly 14 [(0, 14, 50000), (1, 14, 150000)]
      = [0, 0, 0, 0, 0, 0, 0, 0, 0, 0, 0, 0, 0, 0, 100] ∧
    Part001.claimHourTodayMean 1 [(0, 14, 50000), (1, 14, 150000)] 14 = 150 ∧
    (100 : ℚ) ≠ 150 := by
  refine ⟨?_, ?_, by norm_num⟩
  · simp only [Part001.handleHourly, tallyRun_eq]
    norm_num [List.range_succ, List.filter_cons, Part001.hourOk]
  · norm_num [Part001.claimHourTodayMean, List.filter_cons]

/-! ## C10 — daily/monthly trapezoidal integration -/

theorem trapStep_fst (slotOf : ℤ → Option ℕ) (acc : ℕ → ℚ) (epPrev : ℤ)
    (wPrev : ℚ) (r : ℤ × ℚ) (k : ℕ) :
    (Part000.trapStep slotOf (acc, epPrev, wPrev) r).1 k
      = acc k + Part000.trapPairContribSpec slotOf k ((epPrev, wPrev), r) := by
  obtain ⟨ep, w⟩ := r
  show (if 0 < epPrev ∧ epPrev < ep then
          Part000.slotAdd acc (slotOf epPrev)
            (((wPrev + w) / 2) * (((ep - epPrev : ℤ) : ℚ) / 3600))
        else acc) k
      = acc k
        + (if 0 < epPrev ∧ epPrev < ep ∧ slotOf epPrev = some k then
            ((wPrev + w) / 2) * (((ep - epPrev : ℤ) : ℚ) / 3600)
          else 0)
  by_cases h1 : 0 < epPrev ∧ epPrev < ep
  · rw [if_pos h1]
    cases hs : slotOf epPrev with
    | some j =>
      simp only [Part000.slotAdd]
      rw [Function.update_apply]
      by_cases hk : k = j
      · subst hk
        rw [if_pos rfl, if_pos ⟨h1.1, h1.2, rfl⟩]
      · rw [if_neg hk, if_neg (fun hc => by
          have hj := hc.2.2
          injection hj with hj2
          exact hk hj2.symm), add_zero]
    | none =>
      simp only [Part000.slotAdd]
      rw [if_neg (fun hc => Option.noConfusion hc.2.2), add_zero]
  · rw [if_neg h1, if_neg (fun hc => h1 ⟨hc.1, hc.2.1⟩), add_zero]

theorem foldl_trapStep (slotOf : ℤ → Option ℕ) :
    ∀ (recs : List (ℤ × ℚ)) (acc : ℕ → ℚ) (ep0 : ℤ) (w0 : ℚ) (k : ℕ),
      (recs.foldl (Part000.trapStep slotOf) (acc, ep0, w0)).1 k
        = acc k
          + ((((ep0, w0) :: recs).zip recs).map
              (Part000.trapPairContribSpec slotOf k)).sum := by
  intro recs
  induction recs with
  | nil => intro acc ep0 w0 k; simp
  | cons r rs ih =>
    obtain ⟨ep, w⟩ := r
    intro acc ep0 w0 k
    rw [List.foldl_cons]
    have hstep :
        Part000.trapStep slotOf (acc, ep0, w0) (ep, w)
          = ((Part000.trapStep slotOf (acc, ep0, w0) (ep, w)).1, ep, w) := rfl
    rw [hstep, ih, trapStep_fst]
    have hzip :
        (((ep0, w0) :: (ep, w) :: rs).zip ((ep, w) :: rs))
          = ((ep0, w0), (ep, w)) :: (((ep, w) :: rs).zip rs) := by
      simp
    rw [hzip, List.map_cons, List.sum_cons]
    ring

/-- Claim C10 (amended): part_000's daily and monthly handlers — both
instances of the same loop, abstracted over the bucket-slot assignment —
compute each slot as the sum, over consecutive record pairs with increasing
positive timestamps, of (elapsed hours) × (average of the two powers),
attributed to the slot of the earlier timestamp; in particular the daily
handler equals the specification rollup for its day-slot assignment.
Part_001's daily handler does not integrate this way (see the
counterexample). -/
theorem C10_part000_daily_trapezoid :
    (∀ (slotOf : ℤ → Option ℕ) (n : ℕ) (recs : List (ℤ × ℚ)),
        Part000.trapRun slotOf n recs = Part000.trapSpec slotOf n recs) ∧
    (∀ (today0 : ℤ) (recs : List (ℤ × ℚ)),
        Part000.daily_get_handler today0 recs
          = Part000.trapSpec (Part000.dailySlot today0) 30 recs) := by
  have main : ∀ (slotOf : ℤ → Option ℕ) (n : ℕ) (recs : List (ℤ × ℚ)),
      Part000.trapRun slotOf n recs = Part000.trapSpec slotOf n recs := by
    intro slotOf n recs
    unfold Part000.trapRun Part000.trapSpec
    apply List.map_congr_left
    intro k _
    rw [foldl_trapStep]
    cases recs with
    | nil => simp
    | cons r rs =>
      rw [List.zip_cons_cons, List.map_cons, List.sum_cons]
      have hz : Part000.trapPairContribSpec slotOf k ((0, 0), r) = 0 := by
        unfold Part000.trapPairContribSpec
        rw [if_neg]
        rintro ⟨hc, _⟩
        exact lt_irrefl 0 hc
      rw [hz]
      simp
  exact ⟨main, fun today0 recs => main _ _ _⟩

/-- Claim C10 (counterexample): part_001's daily bucket energy is average
power times 5 seconds per record, not a trapezoidal integral.  Two records in
today's bucket (slot 29) with powers 0 mW and 100000 mW taken 3600 s apart
yield bucket energy 5/36 Wh from `handleDaily`, while trapezoidal integration
of the same pair (one elapsed hour, powers 0 W and 100 W) gives 50 Wh. -/
theorem C10_part001_daily_not_trapezoid :
    Part001.handleDaily_wh [(29, 0), (29, 100000)] 29 = 5 / 36 ∧
    Part001.claimTrapezoidWh 3600 0 100 = 50 ∧
    (5 / 36 : ℚ) ≠ 50 := by
  refine ⟨?_, by norm_num [Part001.claimTrapezoidWh], by norm_num⟩
  simp only [Part001.handleDaily_wh, tallyRun_eq]
  norm_num [List.filter_cons]
